import Mathlib

/-!
Shallow embedding of the perplexity-ask MCP server (src/unnamed/part_000).

The source file holds two variants of the same program: a compiled-JS
variant (lines 1-364) and a TS variant (lines 365-757).  Their upstream
client (`performChatCompletion`) and request dispatcher (the
`CallToolRequestSchema` handler) are identical; they differ only in
`parseArgs` / `runServer` (transport selection), which is embedded twice
below.

Modelling conventions:
  - A JS `throw` inside the dispatcher's `try` is modelled by the
    `UpstreamResult.err` / thrown-message strings; the dispatcher's
    `catch` turns a thrown message `m` into the response text
    `"Error: " ++ m`.
  - The single outbound `fetch` of one tool call is modelled by an
    oracle `fetch : String → List ChatMessage → FetchOutcome` mapping
    the model identifier and message list passed upstream to the
    observed outcome of the HTTP exchange.
  - JS property access on possibly-undefined values
    (`data.choices[0].message.content`) throws a TypeError; the
    TypeError's message is modelled by `undefinedReadMsg`.
  - Apostrophes inside source string literals are written `\x27`.
-/

/-- A chat message `{role, content}` as sent by the client. -/
structure ChatMessage where
  role : String
  content : String
deriving Repr, DecidableEq

/-- The `content` item of a choice in the upstream JSON body
(`choices[i].message`). -/
structure ChoiceMessage where
  content : String
deriving Repr, DecidableEq

/-- One element of the upstream `choices` array. -/
structure Choice where
  message : ChoiceMessage
deriving Repr, DecidableEq

/-- The `choices` field of the parsed upstream JSON: it may be missing
(`data.choices` is `undefined`) or an array. -/
inductive ChoicesField where
  | missing
  | arr (cs : List Choice)
deriving Repr, DecidableEq

/-- The `citations` field of the parsed upstream JSON: absent (or another
falsy value), present but not an array, or an array of strings.  The code
guards with `data.citations && Array.isArray(data.citations)`, so the
first two behave identically. -/
inductive CitationsField where
  | absent
  | nonArray
  | arr (cs : List String)
deriving Repr, DecidableEq

/-- The JSON body of a successful upstream response, as the code reads it
(`data.choices`, `data.citations`). -/
structure UpstreamData where
  choices : ChoicesField
  citations : CitationsField
deriving Repr, DecidableEq

/-- Outcome of `response.text()`: the body text, or a read failure. -/
inductive TextReadResult where
  | ok (t : String)
  | err (e : String)
deriving Repr, DecidableEq

/-- Outcome of `response.json()`: parsed data, or a parse failure whose
stringification is `e`. -/
inductive JsonReadResult where
  | ok (data : UpstreamData)
  | err (e : String)
deriving Repr, DecidableEq

/-- An HTTP response as observed through the properties the code uses:
`ok`, `status`, `statusText`, and the results of reading the body as
text or as JSON. -/
structure HttpResponse where
  ok : Bool
  status : Nat
  statusText : String
  textResult : TextReadResult
  jsonResult : JsonReadResult
deriving Repr, DecidableEq

/-- Outcome of the single `fetch` call: the promise rejects before any
response (network error, stringified as `e`), or a response arrives. -/
inductive FetchOutcome where
  | networkError (e : String)
  | response (r : HttpResponse)
deriving Repr, DecidableEq

/-- Result of `performChatCompletion`: the returned string, or the
message of the error it throws. -/
inductive UpstreamResult where
  | ok (text : String)
  | err (msg : String)
deriving Repr, DecidableEq

/-- Message of the TypeError thrown by reading property `field` of
`undefined` (V8 wording), raised by `data.choices[0].message.content`
when `choices` is missing or empty. -/
def undefinedReadMsg (field : String) : String :=
  "Cannot read properties of undefined (reading \x27" ++ field ++ "\x27)"

/-- `data.choices[0].message.content` under JS semantics: missing
`choices` or an empty array throws a TypeError, otherwise the first
choice's message content is returned. -/
def extractFirstChoiceContent : ChoicesField → UpstreamResult
  | .missing => .err (undefinedReadMsg "0")
  | .arr [] => .err (undefinedReadMsg "message")
  | .arr (c :: _) => .ok c.message.content

/-- The citation-appending step of `performChatCompletion` (source lines
530-537): when `citations` is a non-empty array, append
`"\n\nCitations:\n"` then one `"[i+1] citation\n"` line per element via
the indexed `forEach`, modelled as a left fold over `cs.enum`. -/
def appendCitations (content : String) : CitationsField → String
  | .arr cs =>
      if cs.length > 0 then
        List.foldl (fun acc p => acc ++ ("[" ++ toString (p.1 + 1) ++ "] " ++ p.2 ++ "\n"))
          (content ++ "\n\nCitations:\n") cs.enum
      else content
  | _ => content

/-- `performChatCompletion` (source lines 487-540), as a function of the
observed outcome of its single `fetch` call.  Network failure, a
non-success HTTP status (body text replaced by a placeholder when
`response.text()` fails), and a JSON parse failure each throw a distinct
error; on success the first choice's content is extracted and citations
are appended. -/
def performChatCompletion (out : FetchOutcome) : UpstreamResult :=
  match out with
  | .networkError e => .err ("Network error while calling Perplexity API: " ++ e)
  | .response r =>
      if r.ok then
        match r.jsonResult with
        | .err je => .err ("Failed to parse JSON response from Perplexity API: " ++ je)
        | .ok data =>
            match extractFirstChoiceContent data.choices with
            | .err e => .err e
            | .ok cont => .ok (appendCitations cont data.citations)
      else
        .err ("Perplexity API error: " ++ toString r.status ++ " " ++ r.statusText ++ "\n" ++
          (match r.textResult with
           | .ok t => t
           | .err _ => "Unable to parse error response"))

/-- The `messages` property of the tool-call arguments: absent, present
but not an array (`Array.isArray` false), or an array of messages. -/
inductive MessagesField where
  | absent
  | nonArray
  | array (ms : List ChatMessage)
deriving Repr, DecidableEq

/-- The arguments object of a tool call. -/
structure ToolArgs where
  messages : MessagesField
deriving Repr, DecidableEq

/-- A raw tool-call request: `request.params.name` and
`request.params.arguments` (which may be absent). -/
structure CallToolRequest where
  name : String
  args : Option ToolArgs
deriving Repr, DecidableEq

/-- One content item of a tool response (`{type:"text", text}`). -/
structure TextContent where
  type : String
  text : String
deriving Repr, DecidableEq

/-- The uniform tool-response envelope
`{content: [...], isError: boolean}`. -/
structure ToolResponse where
  content : List TextContent
  isError : Bool
deriving Repr, DecidableEq

/-- The dispatcher's `catch` block: a thrown error with message `msg`
becomes `{content:[{type:"text", text:"Error: " ++ msg}], isError:true}`. -/
def catchResponse (msg : String) : ToolResponse :=
  { content := [{ type := "text", text := "Error: " ++ msg }], isError := true }

/-- The `CallToolRequestSchema` handler (source lines 567-622).  Returns
the response together with the upstream call made, if any: `some (model,
messages)` when `performChatCompletion` was invoked with that model
identifier and message list, `none` when no upstream call happened.  The
oracle `fetch` supplies the outcome of the upstream HTTP exchange. -/
def handleToolCall (req : CallToolRequest)
    (fetch : String → List ChatMessage → FetchOutcome) :
    ToolResponse × Option (String × List ChatMessage) :=
  match req.args with
  | none => (catchResponse "No arguments provided", none)
  | some args =>
    if req.name = "perplexity_ask" then
      match args.messages with
      | .array ms =>
          match performChatCompletion (fetch "sonar-pro" ms) with
          | .ok result =>
              ({ content := [{ type := "text", text := result }], isError := false },
               some ("sonar-pro", ms))
          | .err e => (catchResponse e, some ("sonar-pro", ms))
      | _ =>
          (catchResponse "Invalid arguments for perplexity_ask: \x27messages\x27 must be an array",
           none)
    else if req.name = "perplexity_research" then
      match args.messages with
      | .array ms =>
          match performChatCompletion (fetch "sonar-deep-research" ms) with
          | .ok result =>
              ({ content := [{ type := "text", text := result }], isError := false },
               some ("sonar-deep-research", ms))
          | .err e => (catchResponse e, some ("sonar-deep-research", ms))
      | _ =>
          (catchResponse "Invalid arguments for perplexity_research: \x27messages\x27 must be an array",
           none)
    else if req.name = "perplexity_reason" then
      match args.messages with
      | .array ms =>
          match performChatCompletion (fetch "sonar-reasoning-pro" ms) with
          | .ok result =>
              ({ content := [{ type := "text", text := result }], isError := false },
               some ("sonar-reasoning-pro", ms))
          | .err e => (catchResponse e, some ("sonar-reasoning-pro", ms))
      | _ =>
          (catchResponse "Invalid arguments for perplexity_reason: \x27messages\x27 must be an array",
           none)
    else
      ({ content := [{ type := "text", text := "Unknown tool: " ++ req.name }], isError := true },
       none)

/-- The three registered tool names. -/
def registeredToolNames : List String :=
  ["perplexity_ask", "perplexity_research", "perplexity_reason"]

/-- Substring containment, used to state that an error message mentions a
token. -/
def mentions (s pat : String) : Prop :=
  ∃ pre post : String, s = pre ++ pat ++ post

/-- A streamable-HTTP request as `handleStreamable` reads it: the
`mcp-session-id` header value (absent, or a string — possibly empty)
and the HTTP method. -/
structure StreamRequest where
  mcpSessionId : Option String
  method : String
deriving Repr, DecidableEq

/-- What `handleStreamable` does with a request: write a plain response
with a status code and body, delegate to an existing session's stored
transport, or run the new-session initialization path. -/
inductive StreamOutcome where
  | respond (status : Nat) (body : String)
  | delegateToSession (sid : String)
  | initializeNewSession
deriving Repr, DecidableEq

/-- JS truthiness of the header value: `if (sessionId)` is false for an
absent header and for the empty string. -/
def headerTruthy : Option String → Bool
  | none => false
  | some s => !s.isEmpty

/-- The session map is modelled as an association list from session id
to an opaque transport identifier; `Map.get` is `List.lookup`. -/
abbrev SessionMap := List (String × Nat)

/-- `handleStreamable` (source lines 659-702): a truthy session-id header
is looked up (404 on a miss, delegation on a hit); otherwise a POST runs
the new-session path and anything else gets 400. -/
def handleStreamable (sessions : SessionMap) (req : StreamRequest) : StreamOutcome :=
  if headerTruthy req.mcpSessionId then
    match List.lookup (req.mcpSessionId.getD "") sessions with
    | none => .respond 404 "Session not found"
    | some _ => .delegateToSession (req.mcpSessionId.getD "")
  else if req.method = "POST" then
    .initializeNewSession
  else
    .respond 400 "Invalid request"

/-- The events that touch the streamable-HTTP session map: an inbound
request being handled (the handler body itself never writes the map), the
`onsessioninitialized` callback firing with a generated id and its
transport, and a transport's `onclose` firing (`transport.sessionId` may
still be `undefined`, in which case nothing is deleted). -/
inductive SessionEvent where
  | inboundRequest (req : StreamRequest)
  | sessionInitialized (sid : String) (tid : Nat)
  | transportClosed (sid : Option String)
deriving Repr, DecidableEq

/-- Removal of a key, modelling `Map.delete`. -/
def removeSession (sid : String) (m : SessionMap) : SessionMap :=
  List.filter (fun p => p.1 != sid) m

/-- How each event transforms the session map (source lines 674-698):
`streamableSessions.set` runs only inside `onsessioninitialized`,
`streamableSessions.delete` only inside `onclose` when the transport has
a session id, and request handling itself leaves the map alone. -/
def sessionStep (m : SessionMap) : SessionEvent → SessionMap
  | .inboundRequest _ => m
  | .sessionInitialized sid tid => (sid, tid) :: removeSession sid m
  | .transportClosed none => m
  | .transportClosed (some sid) => removeSession sid m

/-- Result of JS `parseInt(s, 10)`: `none` models `NaN`. -/
def jsParseInt (s : String) : Option Int :=
  let parseDigits : List Char → Option Nat := fun cs =>
    let ds := cs.takeWhile Char.isDigit
    if ds.isEmpty then none
    else some (ds.foldl (fun acc c => acc * 10 + (c.toNat - 48)) 0)
  match s.trim.toList with
  | '-' :: rest => (parseDigits rest).map (fun n => -(n : Int))
  | '+' :: rest => (parseDigits rest).map (fun n => (n : Int))
  | cs => (parseDigits cs).map (fun n => (n : Int))

/-- Options of the compiled-JS variant's `parseArgs` (lines 245-255):
only `--port <value>` is recognised; `--stdio` sets nothing. -/
structure JsOptions where
  port : Option Int
deriving Repr, DecidableEq

/-- Options of the TS variant's `parseArgs` (lines 628-642): `--port
<value>` and the `--stdio` flag. -/
structure TsOptions where
  port : Option Int
  stdio : Bool
deriving Repr, DecidableEq

/-- Scanning loop of the JS variant's `parseArgs`: `--port` followed by a
value parses that value (a trailing `--port` with no value is ignored);
every other token is skipped. -/
def parseArgsJSAux : List String → Option Int → Option Int
  | [], acc => acc
  | a :: rest, acc =>
    if a = "--port" then
      match rest with
      | [] => acc
      | v :: rest2 => parseArgsJSAux rest2 (jsParseInt v)
    else parseArgsJSAux rest acc

/-- The compiled-JS variant's `parseArgs` over `process.argv.slice(2)`. -/
def parseArgsJS (argv : List String) : JsOptions :=
  { port := parseArgsJSAux argv none }

/-- Scanning loop of the TS variant's `parseArgs`: like the JS one but
`--stdio` sets the stdio flag. -/
def parseArgsTSAux : List String → TsOptions → TsOptions
  | [], o => o
  | a :: rest, o =>
    if a = "--port" then
      match rest with
      | [] => o
      | v :: rest2 => parseArgsTSAux rest2 { o with port := jsParseInt v }
    else if a = "--stdio" then
      parseArgsTSAux rest { o with stdio := true }
    else parseArgsTSAux rest o

/-- The TS variant's `parseArgs` over `process.argv.slice(2)`. -/
def parseArgsTS (argv : List String) : TsOptions :=
  parseArgsTSAux argv { port := none, stdio := false }

/-- The transport a `runServer` variant starts. -/
inductive TransportChoice where
  | stdio
  | http (port : Int)
deriving Repr, DecidableEq

/-- Transport selection of the compiled-JS variant's `runServer` (lines
345-360): HTTP when `options.port` is truthy (set, a number, and not 0),
stdio otherwise. -/
def runServerJS (argv : List String) : TransportChoice :=
  match (parseArgsJS argv).port with
  | some p => if p = 0 then .stdio else .http p
  | none => .stdio

/-- Transport selection of the TS variant's `runServer` (lines 738-752):
stdio only under `--stdio`; otherwise HTTP on `options.port || 8080`. -/
def runServerTS (argv : List String) : TransportChoice :=
  let o := parseArgsTS argv
  if o.stdio then .stdio
  else
    match o.port with
    | some p => if p = 0 then .http 8080 else .http p
    | none => .http 8080

/-! ## Helper lemmas -/

/-- Folding string concatenation over a list equals appending the join. -/
theorem foldl_append_eq_join (l : List String) (init : String) :
    List.foldl (· ++ ·) init l = init ++ String.join l := by
  induction l generalizing init with
  | nil => simp [String.join]
  | cons a t ih =>
    have hcons : String.join (a :: t) = a ++ String.join t := by
      show List.foldl (· ++ ·) ("" ++ a) t = a ++ String.join t
      rw [String.empty_append, ih a]
    show List.foldl (· ++ ·) (init ++ a) t = init ++ String.join (a :: t)
    rw [ih (init ++ a), hcons, String.append_assoc]

/-- `String.join` of a cons. -/
theorem join_cons (s : String) (L : List String) :
    String.join (s :: L) = s ++ String.join L := by
  show List.foldl (· ++ ·) ("" ++ s) L = s ++ String.join L
  rw [String.empty_append, foldl_append_eq_join]

/-- A left fold that appends `g x` at each step equals the initial string
followed by the join of the mapped list. -/
theorem foldl_concat_join {α : Type} (g : α → String) (l : List α) (init : String) :
    List.foldl (fun acc x => acc ++ g x) init l = init ++ String.join (List.map g l) := by
  induction l generalizing init with
  | nil => simp [String.join]
  | cons a t ih =>
    show List.foldl (fun acc x => acc ++ g x) (init ++ g a) t =
      init ++ String.join (g a :: List.map g t)
    rw [ih (init ++ g a), join_cons, String.append_assoc]

/-- A string starting with `"Error: "` never equals one starting with
`"Unknown tool: "`. -/
theorem error_text_ne_unknown_text (m n : String) :
    "Error: " ++ m ≠ "Unknown tool: " ++ n := by
  intro h
  have h2 : ("Error: " ++ m).data = ("Unknown tool: " ++ n).data := by rw [h]
  rw [String.data_append, String.data_append] at h2
  have h3 : 'E' = 'U' := by
    have := congrArg List.head? h2
    simp at this
  exact absurd h3 (by decide)

/-! ## Claim theorems -/

/-- C4: with an arguments object present and a tool name outside the three
registered names, the dispatcher returns exactly
`{isError:true, content:[{type:"text", text:"Unknown tool: X"}]}` by a
direct return (no `"Error: "` prefix) and makes no upstream call. -/
theorem c4_unknown_tool (name : String) (args : ToolArgs)
    (fetch : String → List ChatMessage → FetchOutcome)
    (h : name ∉ registeredToolNames) :
    handleToolCall ⟨name, some args⟩ fetch =
      ({ content := [{ type := "text", text := "Unknown tool: " ++ name }], isError := true },
       none) := by
  simp only [registeredToolNames, List.mem_cons, List.mem_singleton, not_or,
    List.not_mem_nil] at h
  obtain ⟨h1, h2, h3, -⟩ := h
  simp [handleToolCall, h1, h2, h3]

/-- C4 witness: the unknown tool name `"foo"` produces exactly the
unknown-tool envelope. -/
theorem c4_unknown_tool_witness :
    handleToolCall ⟨"foo", some ⟨.absent⟩⟩ (fun _ _ => .networkError "x") =
      ({ content := [{ type := "text", text := "Unknown tool: foo" }], isError := true },
       none) := by
  have h := c4_unknown_tool "foo" ⟨.absent⟩ (fun _ _ => .networkError "x") (by decide)
  exact h.trans (by decide)

/-- C5 counterexample: with no arguments object, the response's text is
`"Error: No arguments provided"`, not the bare `"No arguments provided"`
the claim states (the thrown message passes through the generic catch,
which adds the `"Error: "` prefix). -/
theorem c5_counterexample :
    (handleToolCall ⟨"perplexity_ask", none⟩ (fun _ _ => .networkError "x")).1 =
      { content := [{ type := "text", text := "Error: No arguments provided" }],
        isError := true } ∧
    ∀ c ∈ (handleToolCall ⟨"perplexity_ask", none⟩ (fun _ _ => .networkError "x")).1.content,
      c.text ≠ "No arguments provided" := by
  constructor
  · rfl
  · decide

/-- C5 amended: for every tool-call request with no arguments object, the
dispatcher returns `isError:true` with text `"Error: No arguments
provided"` (the thrown `"No arguments provided"` gains the catch
handler's `"Error: "` prefix), and makes no upstream call. -/
theorem c5_no_arguments (name : String)
    (fetch : String → List ChatMessage → FetchOutcome) :
    handleToolCall ⟨name, none⟩ fetch =
      ({ content := [{ type := "text", text := "Error: No arguments provided" }],
         isError := true }, none) := rfl

/-- C10: the no-arguments check precedes routing: a request with no
arguments object — even one naming an unregistered tool — gets the
no-arguments error, never the unknown-tool response, and an error
response whose content is the unknown-tool text can only arise when an
arguments object is present. -/
theorem c10_args_check_precedes_routing (name : String)
    (fetch : String → List ChatMessage → FetchOutcome)
    (_h : name ∉ registeredToolNames) :
    (handleToolCall ⟨name, none⟩ fetch).1 = catchResponse "No arguments provided" ∧
    (handleToolCall ⟨name, none⟩ fetch).1 ≠
      { content := [{ type := "text", text := "Unknown tool: " ++ name }], isError := true } ∧
    ∀ (req : CallToolRequest) (f2 : String → List ChatMessage → FetchOutcome),
      (handleToolCall req f2).1.isError = true →
      (handleToolCall req f2).1.content =
        [{ type := "text", text := "Unknown tool: " ++ req.name }] →
      req.args.isSome := by
  refine ⟨rfl, ?_, ?_⟩
  · intro hcontra
    have hc : ("Error: " ++ "No arguments provided" : String) = "Unknown tool: " ++ name :=
      congrArg (fun r => (r.content.headD ⟨"", ""⟩).text) hcontra
    exact error_text_ne_unknown_text _ _ hc
  · intro req f2 _ hcontent
    cases hargs : req.args with
    | some a => rfl
    | none =>
      exfalso
      have hr : (handleToolCall req f2).1 = catchResponse "No arguments provided" := by
        obtain ⟨n, args⟩ := req
        cases hargs
        rfl
      rw [hr] at hcontent
      have hc : ("Error: " ++ "No arguments provided" : String) = "Unknown tool: " ++ req.name :=
        congrArg (fun c => (List.headD c ⟨"", ""⟩).text) hcontent
      exact error_text_ne_unknown_text _ _ hc

/-- C10 witness: a no-arguments request naming the unregistered tool
`"bar"` yields the no-arguments error and not the unknown-tool response. -/
theorem c10_witness :
    (handleToolCall ⟨"bar", none⟩ (fun _ _ => .networkError "x")).1 =
      catchResponse "No arguments provided" ∧
    (handleToolCall ⟨"bar", none⟩ (fun _ _ => .networkError "x")).1 ≠
      { content := [{ type := "text", text := "Unknown tool: " ++ "bar" }],
        isError := true } := by
  have h := c10_args_check_precedes_routing "bar" (fun _ _ => .networkError "x") (by decide)
  exact ⟨h.1, h.2.1⟩

/-- C3: for each registered tool name, arguments whose `messages` is
absent or not an array yield `isError:true`, a message mentioning the
tool name and the word "array", and no upstream call. -/
theorem c3_messages_must_be_array (tool : String) (htool : tool ∈ registeredToolNames)
    (args : ToolArgs) (fetch : String → List ChatMessage → FetchOutcome)
    (hm : ∀ ms, args.messages ≠ .array ms) :
    (handleToolCall ⟨tool, some args⟩ fetch).1.isError = true ∧
    (handleToolCall ⟨tool, some args⟩ fetch).2 = none ∧
    ∃ s, (handleToolCall ⟨tool, some args⟩ fetch).1.content =
        [{ type := "text", text := s }] ∧ mentions s tool ∧ mentions s "array" := by
  obtain ⟨msgs⟩ := args
  have hcase : msgs = .absent ∨ msgs = .nonArray := by
    cases msgs with
    | absent => exact Or.inl rfl
    | nonArray => exact Or.inr rfl
    | array ms => exact absurd rfl (hm ms)
  simp only [registeredToolNames, List.mem_cons, List.mem_singleton,
    List.not_mem_nil, or_false] at htool
  rcases htool with h | h | h <;> subst h <;> rcases hcase with h | h <;> subst h
  · exact ⟨rfl, rfl,
      "Error: Invalid arguments for perplexity_ask: \x27messages\x27 must be an array", rfl,
      ⟨"Error: Invalid arguments for ", ": \x27messages\x27 must be an array", by decide⟩,
      ⟨"Error: Invalid arguments for perplexity_ask: \x27messages\x27 must be an ", "",
        by decide⟩⟩
  · exact ⟨rfl, rfl,
      "Error: Invalid arguments for perplexity_ask: \x27messages\x27 must be an array", rfl,
      ⟨"Error: Invalid arguments for ", ": \x27messages\x27 must be an array", by decide⟩,
      ⟨"Error: Invalid arguments for perplexity_ask: \x27messages\x27 must be an ", "",
        by decide⟩⟩
  · exact ⟨rfl, rfl,
      "Error: Invalid arguments for perplexity_research: \x27messages\x27 must be an array", rfl,
      ⟨"Error: Invalid arguments for ", ": \x27messages\x27 must be an array", by decide⟩,
      ⟨"Error: Invalid arguments for perplexity_research: \x27messages\x27 must be an ", "",
        by decide⟩⟩
  · exact ⟨rfl, rfl,
      "Error: Invalid arguments for perplexity_research: \x27messages\x27 must be an array", rfl,
      ⟨"Error: Invalid arguments for ", ": \x27messages\x27 must be an array", by decide⟩,
      ⟨"Error: Invalid arguments for perplexity_research: \x27messages\x27 must be an ", "",
        by decide⟩⟩
  · exact ⟨rfl, rfl,
      "Error: Invalid arguments for perplexity_reason: \x27messages\x27 must be an array", rfl,
      ⟨"Error: Invalid arguments for ", ": \x27messages\x27 must be an array", by decide⟩,
      ⟨"Error: Invalid arguments for perplexity_reason: \x27messages\x27 must be an ", "",
        by decide⟩⟩
  · exact ⟨rfl, rfl,
      "Error: Invalid arguments for perplexity_reason: \x27messages\x27 must be an array", rfl,
      ⟨"Error: Invalid arguments for ", ": \x27messages\x27 must be an array", by decide⟩,
      ⟨"Error: Invalid arguments for perplexity_reason: \x27messages\x27 must be an ", "",
        by decide⟩⟩

/-- C1: the dispatcher is total and always returns the exact envelope — a
single `{type:"text", text}` content item with a boolean `isError` — and
whenever it reports success the arguments were present and valid, an
upstream call was made, and `performChatCompletion` succeeded on it; by
contraposition every failure (validation, routing, upstream — including
an empty or malformed `choices` list) yields `isError:true` with a
single text item. -/
theorem c1_dispatcher_envelope (req : CallToolRequest)
    (fetch : String → List ChatMessage → FetchOutcome) :
    (∃ s, (handleToolCall req fetch).1.content = [{ type := "text", text := s }]) ∧
    ((handleToolCall req fetch).1.isError = false →
      ∃ a ms mdl r, req.args = some a ∧ a.messages = .array ms ∧
        (handleToolCall req fetch).2 = some (mdl, ms) ∧
        performChatCompletion (fetch mdl ms) = .ok r ∧
        (handleToolCall req fetch).1.content = [{ type := "text", text := r }]) := by
  obtain ⟨name, args⟩ := req
  cases args with
  | none =>
    refine ⟨⟨"Error: " ++ "No arguments provided", rfl⟩, ?_⟩
    intro hfalse
    exact absurd hfalse (by simp [handleToolCall, catchResponse])
  | some a =>
    by_cases h1 : name = "perplexity_ask"
    · subst h1
      cases hm : a.messages with
      | array ms =>
        cases hp : performChatCompletion (fetch "sonar-pro" ms) with
        | ok r =>
          refine ⟨⟨r, ?_⟩, fun _ => ⟨a, ms, "sonar-pro", r, rfl, hm, ?_, hp, ?_⟩⟩ <;>
            simp [handleToolCall, hm, hp]
        | err e =>
          refine ⟨⟨"Error: " ++ e, ?_⟩, ?_⟩
          · simp [handleToolCall, hm, hp, catchResponse]
          · intro hfalse
            exact absurd hfalse (by simp [handleToolCall, hm, hp, catchResponse])
      | absent =>
        refine ⟨⟨"Error: " ++ "Invalid arguments for perplexity_ask: \x27messages\x27 must be an array", ?_⟩, ?_⟩
        · simp [handleToolCall, hm, catchResponse]
        · intro hfalse
          exact absurd hfalse (by simp [handleToolCall, hm, catchResponse])
      | nonArray =>
        refine ⟨⟨"Error: " ++ "Invalid arguments for perplexity_ask: \x27messages\x27 must be an array", ?_⟩, ?_⟩
        · simp [handleToolCall, hm, catchResponse]
        · intro hfalse
          exact absurd hfalse (by simp [handleToolCall, hm, catchResponse])
    · by_cases h2 : name = "perplexity_research"
      · subst h2
        cases hm : a.messages with
        | array ms =>
          cases hp : performChatCompletion (fetch "sonar-deep-research" ms) with
          | ok r =>
            refine ⟨⟨r, ?_⟩, fun _ => ⟨a, ms, "sonar-deep-research", r, rfl, hm, ?_, hp, ?_⟩⟩ <;>
              simp [handleToolCall, hm, hp]
          | err e =>
            refine ⟨⟨"Error: " ++ e, ?_⟩, ?_⟩
            · simp [handleToolCall, hm, hp, catchResponse]
            · intro hfalse
              exact absurd hfalse (by simp [handleToolCall, hm, hp, catchResponse])
        | absent =>
          refine ⟨⟨"Error: " ++ "Invalid arguments for perplexity_research: \x27messages\x27 must be an array", ?_⟩, ?_⟩
          · simp [handleToolCall, hm, catchResponse]
          · intro hfalse
            exact absurd hfalse (by simp [handleToolCall, hm, catchResponse])
        | nonArray =>
          refine ⟨⟨"Error: " ++ "Invalid arguments for perplexity_research: \x27messages\x27 must be an array", ?_⟩, ?_⟩
          · simp [handleToolCall, hm, catchResponse]
          · intro hfalse
            exact absurd hfalse (by simp [handleToolCall, hm, catchResponse])
      · by_cases h3 : name = "perplexity_reason"
        · subst h3
          cases hm : a.messages with
          | array ms =>
            cases hp : performChatCompletion (fetch "sonar-reasoning-pro" ms) with
            | ok r =>
              refine ⟨⟨r, ?_⟩, fun _ => ⟨a, ms, "sonar-reasoning-pro", r, rfl, hm, ?_, hp, ?_⟩⟩ <;>
                simp [handleToolCall, hm, hp]
            | err e =>
              refine ⟨⟨"Error: " ++ e, ?_⟩, ?_⟩
              · simp [handleToolCall, hm, hp, catchResponse]
              · intro hfalse
                exact absurd hfalse (by simp [handleToolCall, hm, hp, catchResponse])
          | absent =>
            refine ⟨⟨"Error: " ++ "Invalid arguments for perplexity_reason: \x27messages\x27 must be an array", ?_⟩, ?_⟩
            · simp [handleToolCall, hm, catchResponse]
            · intro hfalse
              exact absurd hfalse (by simp [handleToolCall, hm, catchResponse])
          | nonArray =>
            refine ⟨⟨"Error: " ++ "Invalid arguments for perplexity_reason: \x27messages\x27 must be an array", ?_⟩, ?_⟩
            · simp [handleToolCall, hm, catchResponse]
            · intro hfalse
              exact absurd hfalse (by simp [handleToolCall, hm, catchResponse])
        · refine ⟨⟨"Unknown tool: " ++ name, ?_⟩, ?_⟩
          · simp [handleToolCall, h1, h2, h3]
          · intro hfalse
            exact absurd hfalse (by simp [handleToolCall, h1, h2, h3])

/-- A successful upstream HTTP response whose first choice carries
`cont`, with further choices `rest` and citations field `cits`; used to
state the success-path claims. -/
def successResponse (cont : String) (rest : List Choice) (cits : CitationsField) :
    HttpResponse :=
  { ok := true, status := 200, statusText := "OK", textResult := .ok "",
    jsonResult := .ok { choices := .arr ({ message := { content := cont } } :: rest),
                        citations := cits } }

/-- C1 witness: on a concrete valid request with a successful upstream
response, the envelope holds and the success case applies with its
hypothesis discharged. -/
theorem c1_dispatcher_envelope_witness :
    (∃ s, (handleToolCall ⟨"perplexity_ask", some ⟨.array []⟩⟩
        (fun _ _ => .response (successResponse "hi" [] .absent))).1.content =
        [{ type := "text", text := s }]) ∧
    (∃ a ms mdl r,
      (some (⟨.array []⟩ : ToolArgs) : Option ToolArgs) = some a ∧
      a.messages = .array ms ∧
      (handleToolCall ⟨"perplexity_ask", some ⟨.array []⟩⟩
        (fun _ _ => .response (successResponse "hi" [] .absent))).2 = some (mdl, ms) ∧
      performChatCompletion ((fun _ _ => .response (successResponse "hi" [] .absent))
        mdl ms) = .ok r ∧
      (handleToolCall ⟨"perplexity_ask", some ⟨.array []⟩⟩
        (fun _ _ => .response (successResponse "hi" [] .absent))).1.content =
        [{ type := "text", text := r }]) :=
  ⟨(c1_dispatcher_envelope ⟨"perplexity_ask", some ⟨.array []⟩⟩
      (fun _ _ => .response (successResponse "hi" [] .absent))).1,
   (c1_dispatcher_envelope ⟨"perplexity_ask", some ⟨.array []⟩⟩
      (fun _ _ => .response (successResponse "hi" [] .absent))).2 (by decide)⟩

/-- C2: on a successful upstream response, `performChatCompletion`
returns the first choice's content unchanged when the citations field is
absent or an empty array, and with citations `[c1..cn]` it returns the
content followed by `"\n\nCitations:\n"` and one `"[i] ci\n"` line per
citation, 1-indexed in list order. -/
theorem c2_citation_formatting (cont : String) (rest : List Choice) :
    performChatCompletion (.response (successResponse cont rest .absent)) = .ok cont ∧
    performChatCompletion (.response (successResponse cont rest (.arr []))) = .ok cont ∧
    (∀ cs : List String, cs ≠ [] →
      performChatCompletion (.response (successResponse cont rest (.arr cs))) =
        .ok (cont ++ "\n\nCitations:\n" ++
          String.join (List.map (fun p => "[" ++ toString (p.1 + 1) ++ "] " ++ p.2 ++ "\n")
            cs.enum))) := by
  refine ⟨rfl, rfl, ?_⟩
  intro cs hcs
  show UpstreamResult.ok (appendCitations cont (.arr cs)) = _
  have hpos : 0 < cs.length := List.length_pos.mpr hcs
  simp only [appendCitations, if_pos hpos]
  rw [foldl_concat_join, String.append_assoc]

/-- C2 witness: content `"C"` with citations `["a","b"]` yields exactly
`"C\n\nCitations:\n[1] a\n[2] b\n"`. -/
theorem c2_citation_formatting_witness :
    performChatCompletion (.response (successResponse "C" [] (.arr ["a", "b"]))) =
      .ok "C\n\nCitations:\n[1] a\n[2] b\n" := by
  have h := (c2_citation_formatting "C" []).2.2 ["a", "b"] (by decide)
  exact h.trans (by decide)

/-- C6: `performChatCompletion` classifies upstream failure into three
distinct propagated errors: a network failure before any response, a
non-success HTTP status whose message carries the status code, status
text and body text (with a fixed placeholder when the body cannot be
read), and an invalid-JSON body; in each case no success value is
produced. -/
theorem c6_upstream_error_classification (e : String) (r : HttpResponse) :
    performChatCompletion (.networkError e) =
      .err ("Network error while calling Perplexity API: " ++ e) ∧
    (r.ok = false →
      performChatCompletion (.response r) =
        .err ("Perplexity API error: " ++ toString r.status ++ " " ++ r.statusText ++ "\n" ++
          (match r.textResult with
           | .ok t => t
           | .err _ => "Unable to parse error response"))) ∧
    (∀ je, r.ok = true → r.jsonResult = .err je →
      performChatCompletion (.response r) =
        .err ("Failed to parse JSON response from Perplexity API: " ++ je)) := by
  refine ⟨rfl, ?_, ?_⟩
  · intro hok
    simp [performChatCompletion, hok]
  · intro je hok hjson
    simp [performChatCompletion, hok, hjson]

/-- C6 witness: concrete instances of the three failure kinds, each
hypothesis discharged at a concrete response. -/
theorem c6_upstream_error_classification_witness :
    performChatCompletion (.networkError "boom") =
      .err ("Network error while calling Perplexity API: " ++ "boom") ∧
    performChatCompletion (.response
        { ok := false, status := 500, statusText := "Internal Server Error",
          textResult := .err "x", jsonResult := .err "y" }) =
      .err "Perplexity API error: 500 Internal Server Error\nUnable to parse error response" ∧
    performChatCompletion (.response
        { ok := true, status := 200, statusText := "OK",
          textResult := .ok "", jsonResult := .err "bad json" }) =
      .err "Failed to parse JSON response from Perplexity API: bad json" := by
  refine ⟨(c6_upstream_error_classification "boom"
      { ok := false, status := 500, statusText := "Internal Server Error",
        textResult := .err "x", jsonResult := .err "y" }).1, ?_, ?_⟩
  · have h := (c6_upstream_error_classification "boom"
      { ok := false, status := 500, statusText := "Internal Server Error",
        textResult := .err "x", jsonResult := .err "y" }).2.1 rfl
    exact h.trans (by decide)
  · have h := (c6_upstream_error_classification "boom"
      { ok := true, status := 200, statusText := "OK",
        textResult := .ok "", jsonResult := .err "bad json" }).2.2 "bad json" rfl rfl
    exact h.trans (by decide)

/-- C7 counterexample: a request whose `mcp-session-id` header is present
with the empty-string value — which is not a key of the (empty) session
map — gets HTTP 400 `"Invalid request"`, not the 404 `"Session not
found"` the claim requires, because `if (sessionId)` treats the empty
string as falsy. -/
theorem c7_counterexample :
    (some "" ≠ (none : Option String)) ∧
    List.lookup "" ([] : SessionMap) = none ∧
    handleStreamable [] ⟨some "", "GET"⟩ = .respond 400 "Invalid request" ∧
    handleStreamable [] ⟨some "", "GET"⟩ ≠ .respond 404 "Session not found" := by
  decide

/-- C7 amended: a request whose `mcp-session-id` header value is
non-empty and not a key of the session map gets HTTP 404 `"Session not
found"`; a request whose header is absent or empty (JS truthiness treats
the empty value as absent) and whose method is not POST gets HTTP 400
`"Invalid request"`. -/
theorem c7_streamable_http_errors (sessions : SessionMap) (req : StreamRequest)
    (sid : String) :
    (req.mcpSessionId = some sid → sid ≠ "" → List.lookup sid sessions = none →
      handleStreamable sessions req = .respond 404 "Session not found") ∧
    ((req.mcpSessionId = none ∨ req.mcpSessionId = some "") → req.method ≠ "POST" →
      handleStreamable sessions req = .respond 400 "Invalid request") := by
  constructor
  · intro h1 h2 h3
    have hne : sid.isEmpty = false := by
      cases hse : sid.isEmpty with
      | false => rfl
      | true => exact absurd ((String.isEmpty_iff sid).mp hse) h2
    simp [handleStreamable, headerTruthy, h1, hne, h3]
  · have he : ("" : String).isEmpty = true := rfl
    rintro (h | h) h2 <;> simp [handleStreamable, headerTruthy, h, h2, he]

/-- C7 witness: an unknown non-empty session id gets 404, and a GET with
no session header gets 400. -/
theorem c7_streamable_http_errors_witness :
    handleStreamable [] ⟨some "abc", "GET"⟩ = .respond 404 "Session not found" ∧
    handleStreamable [] ⟨none, "GET"⟩ = .respond 400 "Invalid request" :=
  ⟨(c7_streamable_http_errors [] ⟨some "abc", "GET"⟩ "abc").1 rfl (by decide) rfl,
   (c7_streamable_http_errors [] ⟨none, "GET"⟩ "abc").2 (Or.inl rfl) (by decide)⟩

/-- Looking up a key just removed yields nothing. -/
theorem lookup_removeSession_self (sid : String) (m : SessionMap) :
    List.lookup sid (removeSession sid m) = none := by
  induction m with
  | nil => rfl
  | cons p t ih =>
    obtain ⟨k, v⟩ := p
    by_cases hk : k = sid
    · simp [removeSession, List.filter_cons, hk] at ih ⊢
      exact ih
    · have hne : (k != sid) = true := by simp [bne, hk]
      have hls : (sid == k) = false := by
        simp [beq_eq_false_iff_ne]
        exact fun hcontra => hk hcontra.symm
      simp [removeSession, List.filter_cons, hne, List.lookup, hls] at ih ⊢
      exact ih

/-- Removing a different key leaves a lookup unchanged. -/
theorem lookup_removeSession_ne (sid k : String) (m : SessionMap) (h : sid ≠ k) :
    List.lookup sid (removeSession k m) = List.lookup sid m := by
  induction m with
  | nil => rfl
  | cons p t ih =>
    obtain ⟨k2, v⟩ := p
    by_cases hk : k2 = k
    · subst hk
      have hls : (sid == k2) = false := by
        simp [beq_eq_false_iff_ne]
        exact h
      simp [removeSession, List.filter_cons, List.lookup, hls] at ih ⊢
      exact ih
    · have hne : (k2 != k) = true := by simp [bne, hk]
      by_cases hs : sid = k2
      · subst hs
        simp [removeSession, List.filter_cons, hne, List.lookup]
      · have hls : (sid == k2) = false := by
          simp [beq_eq_false_iff_ne]
          exact hs
        simp [removeSession, List.filter_cons, hne, List.lookup, hls] at ih ⊢
        exact ih

/-- C8: the streamable-HTTP session map is mutated only by the two
registered callbacks — handling an inbound request itself never changes
it, `onsessioninitialized` inserts exactly the initialized id, and
`onclose` removes the transport's id — so any id present after a trace
of events was either present initially or had its
`onsessioninitialized` fire in the trace (a session whose handshake
never completes is never stored). -/
theorem c8_session_map_invariant (trace : List SessionEvent) (init : SessionMap)
    (sid : String) :
    (∀ (m : SessionMap) (r : StreamRequest), sessionStep m (.inboundRequest r) = m) ∧
    (∀ (m : SessionMap) (tid : Nat),
      List.lookup sid (sessionStep m (.sessionInitialized sid tid)) = some tid) ∧
    (∀ (m : SessionMap),
      List.lookup sid (sessionStep m (.transportClosed (some sid))) = none) ∧
    (∀ (m : SessionMap), sessionStep m (.transportClosed none) = m) ∧
    ((List.lookup sid (trace.foldl sessionStep init)).isSome →
      (List.lookup sid init).isSome ∨
        ∃ tid, SessionEvent.sessionInitialized sid tid ∈ trace) := by
  refine ⟨fun _ _ => rfl, ?_, ?_, fun _ => rfl, ?_⟩
  · intro m tid
    simp [sessionStep, List.lookup]
  · intro m
    exact lookup_removeSession_self sid m
  · induction trace generalizing init with
    | nil =>
      intro h
      exact Or.inl h
    | cons e t ih =>
      intro h
      have hstep := ih (sessionStep init e) h
      rcases hstep with hs | ⟨tid, hmem⟩
      · cases e with
        | inboundRequest r => exact Or.inl hs
        | sessionInitialized k tid =>
          by_cases hk : sid = k
          · subst hk
            exact Or.inr ⟨tid, List.mem_cons_self _ _⟩
          · have hls : (sid == k) = false := by
              simp [beq_eq_false_iff_ne]
              exact hk
            rw [show sessionStep init (.sessionInitialized k tid) =
                (k, tid) :: removeSession k init from rfl] at hs
            rw [List.lookup, hls, lookup_removeSession_ne sid k init hk] at hs
            exact Or.inl hs
        | transportClosed osid =>
          cases osid with
          | none => exact Or.inl hs
          | some k =>
            by_cases hk : sid = k
            · subst hk
              rw [show sessionStep init (.transportClosed (some sid)) =
                  removeSession sid init from rfl,
                lookup_removeSession_self] at hs
              simp at hs
            · rw [show sessionStep init (.transportClosed (some k)) =
                  removeSession k init from rfl,
                lookup_removeSession_ne sid k init hk] at hs
              exact Or.inl hs
      · exact Or.inr ⟨tid, List.mem_cons_of_mem _ hmem⟩

/-- C8 witness: after initializing session `"s1"` on the empty map, the
id is present, and its presence implies the initialization event is in
the trace. -/
theorem c8_session_map_invariant_witness :
    (List.lookup "s1" ([] : SessionMap)).isSome ∨
      ∃ tid, SessionEvent.sessionInitialized "s1" tid ∈
        [SessionEvent.sessionInitialized "s1" 7] :=
  (c8_session_map_invariant [SessionEvent.sessionInitialized "s1" 7] [] "s1").2.2.2.2
    (by decide)

/-- With no `--port` token in the argument list, the JS variant's scan
leaves the accumulator unchanged. -/
theorem parseArgsJSAux_no_port (argv : List String) (acc : Option Int)
    (h : "--port" ∉ argv) : parseArgsJSAux argv acc = acc := by
  induction argv generalizing acc with
  | nil => rfl
  | cons a t ih =>
    simp only [List.mem_cons, not_or] at h
    have ha : a ≠ "--port" := fun he => h.1 he.symm
    rw [parseArgsJSAux.eq_def]
    simp only [if_neg ha]
    exact ih acc h.2

/-- With neither `--port` nor `--stdio` in the argument list, the TS
variant's scan leaves the options unchanged. -/
theorem parseArgsTSAux_no_flags (argv : List String) (o : TsOptions)
    (h1 : "--port" ∉ argv) (h2 : "--stdio" ∉ argv) : parseArgsTSAux argv o = o := by
  induction argv generalizing o with
  | nil => rfl
  | cons a t ih =>
    simp only [List.mem_cons, not_or] at h1 h2
    have ha : a ≠ "--port" := fun he => h1.1 he.symm
    have hb : a ≠ "--stdio" := fun he => h2.1 he.symm
    rw [parseArgsTSAux.eq_def]
    simp only [if_neg ha, if_neg hb]
    exact ih o h1.2 h2.2

/-- C9: the two entry-point variants are not behaviourally equivalent: on
an argument list containing neither `--port` nor `--stdio`, the JS
variant's `runServer` selects the stdio transport while the TS variant's
starts HTTP on port 8080; and the TS variant's `parseArgs` recognises
`--stdio` (setting its flag) while the JS variant's sets nothing for it. -/
theorem c9_entry_point_divergence (argv : List String)
    (h1 : "--port" ∉ argv) (h2 : "--stdio" ∉ argv) :
    runServerJS argv = .stdio ∧
    runServerTS argv = .http 8080 ∧
    runServerJS argv ≠ runServerTS argv ∧
    parseArgsTS ["--stdio"] = { port := none, stdio := true } ∧
    parseArgsJS ["--stdio"] = { port := none } ∧
    runServerTS ["--stdio"] = .stdio := by
  have hj : parseArgsJS argv = { port := none } := by
    simp only [parseArgsJS, parseArgsJSAux_no_port argv none h1]
  have ht : parseArgsTS argv = { port := none, stdio := false } := by
    simp only [parseArgsTS, parseArgsTSAux_no_flags argv _ h1 h2]
  refine ⟨?_, ?_, ?_, by decide, by decide, by decide⟩
  · simp [runServerJS, hj]
  · simp [runServerTS, ht]
  · simp [runServerJS, runServerTS, hj, ht]

/-- C9 witness: on an argument list with neither flag, the JS variant
picks stdio and the TS variant picks HTTP on 8080. -/
theorem c9_entry_point_divergence_witness :
    runServerJS ["serve"] = .stdio ∧ runServerTS ["serve"] = .http 8080 := by
  have h := c9_entry_point_divergence ["serve"] (by decide) (by decide)
  exact ⟨h.1, h.2.1⟩

/-- C3 witness: calling `perplexity_ask` with `messages` absent yields an
error response mentioning the tool name and "array", with no upstream
call. -/
theorem c3_messages_must_be_array_witness :
    (handleToolCall ⟨"perplexity_ask", some ⟨.absent⟩⟩
      (fun _ _ => .networkError "x")).1.isError = true ∧
    (handleToolCall ⟨"perplexity_ask", some ⟨.absent⟩⟩
      (fun _ _ => .networkError "x")).2 = none ∧
    ∃ s, (handleToolCall ⟨"perplexity_ask", some ⟨.absent⟩⟩
        (fun _ _ => .networkError "x")).1.content =
        [{ type := "text", text := s }] ∧
      mentions s "perplexity_ask" ∧ mentions s "array" :=
  c3_messages_must_be_array "perplexity_ask" (by decide) ⟨.absent⟩
    (fun _ _ => .networkError "x") (fun ms h => MessagesField.noConfusion h)
